import Mathlib

/-!
Shallow embedding of the Product-Scrapper repository's core
(`ProductScraper` of the final iteration: CONFIG, selector catalog,
page-interaction protocol, retry wrapper, concurrency pool), together
with theorems settling the specification claims.

Strings are manipulated through their character lists so that the
JavaScript regex-based cleaning transforms
(`replace(/[^0-9.]/g,'')`, `replace(/\D/g,'')`, `split('out of')[0]`,
`trim()`, `replace(/\s+/g,' ')`) are embedded as explicit total
functions.  Page state that lives in the external browser (HTTP
response, page title, DOM visibility, raw selector-chain results, body
text) is abstracted into a `PageState` record; the protocol's pure
control flow is translated exactly.
-/

namespace Scraper

/-- JS whitespace characters relevant to `trim` and `\s` (ASCII range plus
no-break space; the source strings never contain the rarer Unicode spaces). -/
def isJsWs (c : Char) : Bool :=
  c == ' ' || c == '\t' || c == '\n' || c == '\r' || c == '\x0b' || c == '\x0c' || c == ' '

/-- Characters kept by the price/rating cleaning regexes `[^0-9.]` / `[^\d.]`. -/
def isDigitOrDot (c : Char) : Bool :=
  c.isDigit || c == '.'

/-- `String.trim` as performed by JS `trim()`: drop leading and trailing whitespace. -/
def jsTrimChars (l : List Char) : List Char :=
  ((l.dropWhile isJsWs).reverse.dropWhile isJsWs).reverse

def jsTrim (s : String) : String :=
  (jsTrimChars s.toList).asString

/-- The part of `l` strictly before the first occurrence of `pat`
(the whole of `l` when `pat` does not occur): JS `l.split(pat)[0]`. -/
def takeBeforeInfix (pat : List Char) : List Char → List Char
  | [] => []
  | c :: rest =>
    if pat.isPrefixOf (c :: rest) then []
    else c :: takeBeforeInfix pat rest

/-- Does `pat` occur as a contiguous substring of `l`?  (JS `includes`.) -/
def hasInfix (pat : List Char) : List Char → Bool
  | [] => pat.isEmpty
  | c :: rest => pat.isPrefixOf (c :: rest) || hasInfix pat rest

/-- JS `String.prototype.includes`. -/
def containsSub (s pat : String) : Bool :=
  hasInfix pat.toList s.toList

/-- Collapse every maximal run of whitespace into a single space:
JS `replace(/\s+/g, ' ')`. -/
def collapseWs : List Char → List Char
  | [] => []
  | c :: rest =>
    if isJsWs c then
      match rest with
      | [] => [' ']
      | d :: _ => if isJsWs d then collapseWs rest else ' ' :: collapseWs rest
    else c :: collapseWs rest

/-- `price.replace(/[^0-9.]/g, '')`. -/
def cleanPrice (s : String) : String :=
  (s.toList.filter isDigitOrDot).asString

/-- `reviews.replace(/\D/g, '')`. -/
def cleanReviews (s : String) : String :=
  (s.toList.filter Char.isDigit).asString

/-- `rating.split('out of')[0].trim().replace(/[^\d.]/g, '')`. -/
def cleanRating (s : String) : String :=
  ((jsTrimChars (takeBeforeInfix "out of".toList s.toList)).filter isDigitOrDot).asString

/-- `description.slice(0, 500).replace(/\s+/g, ' ').trim()`. -/
def cleanDescription (maxLen : Nat) (s : String) : String :=
  (jsTrimChars (collapseWs (s.toList.take maxLen))).asString

/-- `title.trim() || "ERROR"`. -/
def cleanTitle (s : String) : String :=
  if jsTrim s = "" then "ERROR" else jsTrim s

/-- Case-insensitive substring test, for the `/…/i` title regex. -/
def containsSubCI (s pat : String) : Bool :=
  hasInfix (pat.toList.map Char.toLower) (s.toList.map Char.toLower)

-- The relevant scalar fields of the global `CONFIG` object.
namespace CONFIG

def LOCATOR_TIMEOUT : Nat := 10000
def PAGE_TIMEOUT : Nat := 30000
def CONCURRENCY_LIMIT : Nat := 3
def MAX_RETRIES : Nat := 3
def DESCRIPTION_MAX_LENGTH : Nat := 500
def FALLBACK_DESCRIPTION : String := "FAILED"
def EMPTY_STRING : String := ""

end CONFIG

/-- The input descriptor (`SKUInput`): retailer tag and identifier
(`Type'` embeds the source field `Type`, which is a Lean keyword). -/
structure SKUInput where
  Type' : String
  SKU : String
deriving DecidableEq, Repr

/-- The scraped record (`Product`); `NumReviews` embeds the
`'Number of Reviews'` field. -/
structure Product where
  SKU : String
  Source : String
  Title : String
  Description : String
  Price : String
  NumReviews : String
  Rating : String
deriving DecidableEq, Repr

/-- Per-retailer candidate selector lists (`SelectorConfig`). -/
structure SelectorConfig where
  title : List String
  description : List String
  price : List String
  reviews : List String
  rating : List String
deriving DecidableEq, Repr

/-- The selector catalog `SELECTORS_MAP`, as a partial lookup. -/
def SELECTORS_MAP (t : String) : Option SelectorConfig :=
  if t = "Amazon" then
    some {
      title := ["#productTitle", "#title", ".qa-title-text"],
      description := ["#productDescription", "#feature-bullets"],
      price := [".a-price .a-offscreen", "#corePriceDisplay_desktop_feature_div span", ".a-color-price"],
      reviews := ["#acrCustomerReviewText", "#acrCustomerReviewLink"],
      rating := ["i.a-icon-star span", "span[data-hook=\"rating-out-of-text\"]", ".a-icon-alt"] }
  else if t = "Walmart" then
    some {
      title := ["h1", "[itemprop=\"name\"]"],
      description := ["meta[name=\"description\"]"],
      price := ["[itemprop=\"price\"]", ".price-display .display-price", "[data-testid=\"price-wrap\"]"],
      reviews := ["script[data-seo-id=\"schema-org-product\"]", ".rating-number", "[data-testid=\"reviews-count\"]", ".w_D"],
      rating := ["script[data-seo-id=\"schema-org-product\"]", "[data-testid=\"average-rating\"]", ".rating-number"] }
  else none

/-- The state of the external browser page observed by one protocol run:
the navigation response status (`none` = no response object), the page
title, whether a title selector became visible in time, the raw result of
each field's selector fallback chain, and the body text. -/
structure PageState where
  response : Option Nat
  pageTitle : String
  titleVisible : Bool
  rawTitle : String
  rawDescription : String
  rawPrice : String
  rawReviews : String
  rawRating : String
  bodyText : String
deriving DecidableEq, Repr

/-- `resolveProductUrl`: deterministic URL template per retailer tag
(identical in the final scraper and in `utils.ts`). -/
def resolveProductUrl (sku : SKUInput) : String :=
  if sku.Type' = "Walmart"
  then "https://www.walmart.com/ip/" ++ sku.SKU
  else "https://www.amazon.com/dp/" ++ sku.SKU

/-- `navigateToPage`: HTTP-level failure conditions. -/
def navigateToPage (response : Option Nat) : Except String Unit :=
  match response with
  | none => .error "No Response"
  | some status =>
    if status = 404 then .error "Page Not Found (404)"
    else if status > 399 then .error ("HTTP Error: " ++ toString status)
    else .ok ()

/-- `checkForBotDetection`: `/Robot|Captcha|Sorry|Page Not Found/i` on the page title. -/
def checkForBotDetection (ps : PageState) : Except String Unit :=
  if containsSubCI ps.pageTitle "Robot" || containsSubCI ps.pageTitle "Captcha" ||
     containsSubCI ps.pageTitle "Sorry" || containsSubCI ps.pageTitle "Page Not Found" then
    .error "Anti-bot detected or Invalid Page"
  else .ok ()

/-- `waitForProductContent`: a title candidate must become visible in time. -/
def waitForProductContent (ps : PageState) (_selectors : SelectorConfig) : Except String Unit :=
  if ps.titleVisible then .ok ()
  else .error "Timeout: Product title never appeared on screen"

/-- The field map produced by `extractData`. -/
structure ExtractedData where
  Title : String
  Description : String
  Price : String
  NumReviews : String
  Rating : String
deriving DecidableEq, Repr

/-- `extractData`: cleaning of the raw selector-chain results
(the DOM-facing chain itself is abstracted into the raw fields of
`PageState`). -/
def extractData (ps : PageState) : ExtractedData :=
  { Title := cleanTitle ps.rawTitle,
    Description := cleanDescription CONFIG.DESCRIPTION_MAX_LENGTH ps.rawDescription,
    Price := cleanPrice ps.rawPrice,
    NumReviews := cleanReviews ps.rawReviews,
    Rating := cleanRating ps.rawRating }

/-- `validateExtractedData`: empty title triggers the unavailability probe. -/
def validateExtractedData (d : ExtractedData) (ps : PageState) : Except String Unit :=
  if d.Title = "" then
    if containsSub ps.bodyText "Currently unavailable" then
      .error "Product Currently Unavailable"
    else .error "Validation Failed: Content loaded but Title is empty"
  else .ok ()

/-- `fetchProductData`: the per-attempt protocol pipeline, with the
monadic sequencing of stage failures expanded into matches (the
best-effort soft-block and humanization stages swallow their own failures
and leave no observable trace in the returned record, so they are
identities here). -/
def fetchProductData (sku : SKUInput) (ps : PageState) : Except String Product :=
  match SELECTORS_MAP sku.Type' with
  | none => .error "Selectors not mapped"
  | some selectors =>
    match navigateToPage ps.response with
    | .error e => .error e
    | .ok _ =>
      match checkForBotDetection ps with
      | .error e => .error e
      | .ok _ =>
        match waitForProductContent ps selectors with
        | .error e => .error e
        | .ok _ =>
          let data := extractData ps
          match validateExtractedData data ps with
          | .error e => .error e
          | .ok _ =>
            .ok { SKU := sku.SKU, Source := sku.Type',
                  Title := data.Title, Description := data.Description,
                  Price := data.Price, NumReviews := data.NumReviews,
                  Rating := data.Rating }

/-- `createFallbackProduct`. -/
def createFallbackProduct (sku : SKUInput) (reason : String) : Product :=
  { SKU := sku.SKU, Source := sku.Type', Title := reason,
    Description := CONFIG.FALLBACK_DESCRIPTION,
    Price := CONFIG.EMPTY_STRING,
    NumReviews := CONFIG.EMPTY_STRING,
    Rating := CONFIG.EMPTY_STRING }

/-- The external circumstances of one scrape attempt: whether the shared
browser was initialized, whether context/page creation succeeded
(`contextError` carries the browser-level error message when it failed),
and the page state the attempt observes. -/
structure AttemptEnv where
  browserReady : Bool
  contextError : Option String
  page : PageState
deriving DecidableEq, Repr

/-- `scrapeSingleSKU`: returns the fallback when the browser is missing,
propagates context/page-creation errors and protocol errors (its `catch`
block rethrows after building a discarded fallback; the `finally` cleanup
swallows its own failures). -/
def scrapeSingleSKU (sku : SKUInput) (env : AttemptEnv) : Except String Product :=
  if !env.browserReady then .ok (createFallbackProduct sku "Browser not initialized")
  else
    match env.contextError with
    | some e => .error e
    | none => fetchProductData sku env.page

/-- The soft-failure test of `scrapeWithRetry`:
`product.Title === 'ERROR' || product.Title.includes('Robot Check')`. -/
def isSoftFailure (p : Product) : Bool :=
  p.Title == "ERROR" || containsSub p.Title "Robot Check"

/-- The retry loop body of `scrapeWithRetry`, over the list of remaining
per-attempt outcomes: a thrown attempt or a soft-failure product consumes
one attempt; any other product is returned immediately; an exhausted list
yields the logged fallback record. -/
def retryLoop (sku : SKUInput) : List (Except String Product) → Product
  | [] => createFallbackProduct sku ("FAILED after " ++ toString CONFIG.MAX_RETRIES ++ " attempts")
  | r :: rest =>
    match r with
    | .ok p => if isSoftFailure p then retryLoop sku rest else p
    | .error _ => retryLoop sku rest

/-- `scrapeWithRetry`: runs at most `CONFIG.MAX_RETRIES` attempts, where
the `i`-th attempt is `scrapeSingleSKU` under the environment `envs i`. -/
def scrapeWithRetry (sku : SKUInput) (envs : Nat → AttemptEnv) : Product :=
  retryLoop sku ((List.range CONFIG.MAX_RETRIES).map (fun i => scrapeSingleSKU sku (envs i)))

/-- The mutable state of the `processSKUs` worker pool: the waiting queue,
the descriptors whose workers are in flight, and the records pushed so far
(in completion order). -/
structure PoolState where
  queue : List SKUInput
  active : List SKUInput
  results : List Product
deriving DecidableEq, Repr

/-- The inner admission loop of `processSKUs`, on the destructured pool
state: shift descriptors from the queue into the active set while the
queue is non-empty and the active set is below `CONFIG.CONCURRENCY_LIMIT`. -/
def admitGo : List SKUInput → List SKUInput → List Product → PoolState
  | [], active, results => { queue := [], active := active, results := results }
  | sku :: rest, active, results =>
    if active.length < CONFIG.CONCURRENCY_LIMIT then
      admitGo rest (active ++ [sku]) results
    else { queue := sku :: rest, active := active, results := results }

def admitLoop (s : PoolState) : PoolState :=
  admitGo s.queue s.active s.results

/-- One worker completion: the scheduler index selects which in-flight
worker finishes next; its record is pushed to the results and it leaves
the active set (`activeWorkers.splice`). -/
def completeOne (outcome : SKUInput → Product) (i : Nat) : PoolState → PoolState
  | { queue := q, active := [], results := rs } =>
      { queue := q, active := [], results := rs }
  | { queue := q, active := a :: rest, results := rs } =>
      { queue := q,
        active := (a :: rest).eraseIdx (i % (a :: rest).length),
        results := rs ++ [outcome ((a :: rest).getD (i % (a :: rest).length) a)] }

lemma admitGo_queue_add_active (q : List SKUInput) :
    ∀ a r, (admitGo q a r).queue.length + (admitGo q a r).active.length =
      q.length + a.length := by
  induction q with
  | nil => intro a r; simp [admitGo]
  | cons sku rest ih =>
    intro a r
    by_cases h : a.length < CONFIG.CONCURRENCY_LIMIT
    · simp only [admitGo, h, if_pos]
      have := ih (a ++ [sku]) r
      simp only [List.length_append, List.length_cons, List.length_nil] at this ⊢
      omega
    · simp [admitGo, h]

lemma admitGo_results (q : List SKUInput) :
    ∀ a r, (admitGo q a r).results = r := by
  induction q with
  | nil => intro a r; simp [admitGo]
  | cons sku rest ih =>
    intro a r
    by_cases h : a.length < CONFIG.CONCURRENCY_LIMIT
    · simp only [admitGo, h, if_pos]; exact ih (a ++ [sku]) r
    · simp [admitGo, h]

lemma admitGo_active_nonempty (q : List SKUInput) :
    ∀ a r, (q ≠ [] ∨ a ≠ []) → (admitGo q a r).active ≠ [] := by
  induction q with
  | nil =>
    intro a r h
    simpa [admitGo] using h.resolve_left (fun hc => hc rfl)
  | cons sku rest ih =>
    intro a r _
    by_cases h : a.length < CONFIG.CONCURRENCY_LIMIT
    · simp only [admitGo, h, if_pos]
      exact ih (a ++ [sku]) r (Or.inr (by simp))
    · simp only [admitGo, h, if_neg, ite_false]
      intro hc
      rw [hc] at h
      exact h (by decide)

lemma completeOne_queue_add_active (outcome : SKUInput → Product) (i : Nat)
    (s : PoolState) (h : s.active ≠ []) :
    (completeOne outcome i s).queue.length + (completeOne outcome i s).active.length + 1 =
      s.queue.length + s.active.length := by
  obtain ⟨q, act, rs⟩ := s
  match act, h with
  | a :: rest, _ =>
    have hlt : i % (rest.length + 1) < rest.length + 1 :=
      Nat.mod_lt _ (by omega)
    simp only [completeOne, List.length_eraseIdx, List.length_cons]
    rw [if_pos hlt]
    omega

/-- The outer loop of `processSKUs`: while the queue or the active set is
non-empty, admit up to the concurrency limit, then await one completion
(`Promise.race`), chosen by the completion schedule `sched`. -/
def poolRun (outcome : SKUInput → Product) (sched : Nat → Nat) (step : Nat) (s : PoolState) :
    PoolState :=
  if s.queue = [] ∧ s.active = [] then s
  else
    poolRun outcome sched (step + 1) (completeOne outcome (sched step) (admitLoop s))
termination_by s.queue.length + s.active.length
decreasing_by
  rename_i h
  rw [not_and_or] at h
  have hne : (admitLoop s).active ≠ [] :=
    admitGo_active_nonempty s.queue s.active s.results (by tauto)
  have h1 := completeOne_queue_add_active outcome (sched step) (admitLoop s) hne
  have h2 := admitGo_queue_add_active s.queue s.active s.results
  simp only [admitLoop] at h1 hne ⊢
  omega

/-- `processSKUs`: run the pool from the initial state (all descriptors
queued, nothing in flight), where each descriptor's worker is its
retry-wrapped scrape and `sched` resolves which in-flight worker each
`Promise.race` sees finish first. -/
def processSKUs (envs : SKUInput → Nat → AttemptEnv) (sched : Nat → Nat)
    (skus : List SKUInput) : List Product :=
  (poolRun (fun sku => scrapeWithRetry sku (envs sku)) sched 0
    { queue := skus, active := [], results := [] }).results

/-- Instrumentation of the admission loop: the pool state after each
single admission (each admission is guarded by
`active.length < CONFIG.CONCURRENCY_LIMIT`). -/
def admitTraceGo : List SKUInput → List SKUInput → List Product → List PoolState
  | [], _, _ => []
  | sku :: rest, active, results =>
    if active.length < CONFIG.CONCURRENCY_LIMIT then
      { queue := rest, active := active ++ [sku], results := results } ::
        admitTraceGo rest (active ++ [sku]) results
    else []

/-- Instrumentation of the outer pool loop: every pool state the run
passes through, one entry per elementary event (a single admission or a
single worker completion). -/
def poolTrace (outcome : SKUInput → Product) (sched : Nat → Nat) (step : Nat)
    (s : PoolState) : List PoolState :=
  if s.queue = [] ∧ s.active = [] then []
  else
    admitTraceGo s.queue s.active s.results ++
      completeOne outcome (sched step) (admitLoop s) ::
        poolTrace outcome sched (step + 1) (completeOne outcome (sched step) (admitLoop s))
termination_by s.queue.length + s.active.length
decreasing_by
  rename_i h
  rw [not_and_or] at h
  have hne : (admitLoop s).active ≠ [] :=
    admitGo_active_nonempty s.queue s.active s.results (by tauto)
  have h1 := completeOne_queue_add_active outcome (sched step) (admitLoop s) hne
  have h2 := admitGo_queue_add_active s.queue s.active s.results
  simp only [admitLoop] at h1 hne ⊢
  omega

/-- The instrumented states of a `processSKUs` run. -/
def processTrace (envs : SKUInput → Nat → AttemptEnv) (sched : Nat → Nat)
    (skus : List SKUInput) : List PoolState :=
  poolTrace (fun sku => scrapeWithRetry sku (envs sku)) sched 0
    { queue := skus, active := [], results := [] }

/-- Did one attempt fail in the sense of the retry loop (either the
protocol threw, or it returned a soft-failure product)? -/
def attemptFailed : Except String Product → Bool
  | .error _ => true
  | .ok p => isSoftFailure p

/-- The identifying key of an output record. -/
def keyOfProduct (p : Product) : String × String := (p.SKU, p.Source)

/-- The identifying key of an input descriptor. -/
def keyOfSKU (s : SKUInput) : String × String := (s.SKU, s.Type')

/-- The multiset of identifying keys a pool state owes to the caller:
keys already delivered, keys in flight, keys still queued. -/
def poolKeys (s : PoolState) : Multiset (String × String) :=
  (s.results.map keyOfProduct : List _) + (s.queue.map keyOfSKU : List _) +
    (s.active.map keyOfSKU : List _)

lemma asString_toList (l : List Char) : l.asString.toList = l := rfl

lemma filter_idem (p : Char → Bool) (l : List Char) :
    (l.filter p).filter p = l.filter p :=
  List.filter_eq_self.mpr (fun _ ha => (List.mem_filter.mp ha).2)

lemma dropWhile_of_all_neg (p : Char → Bool) (l : List Char)
    (h : ∀ c ∈ l, p c = false) : l.dropWhile p = l := by
  cases l with
  | nil => rfl
  | cons c rest =>
    rw [List.dropWhile_cons, h c (by simp)]
    simp

lemma jsTrimChars_of_all_neg (l : List Char) (h : ∀ c ∈ l, isJsWs c = false) :
    jsTrimChars l = l := by
  unfold jsTrimChars
  rw [dropWhile_of_all_neg _ _ h,
    dropWhile_of_all_neg _ _ (fun c hc => h c (List.mem_reverse.mp hc)),
    List.reverse_reverse]

lemma takeBeforeInfix_of_all_ne (c : Char) (pr l : List Char)
    (h : ∀ d ∈ l, d ≠ c) : takeBeforeInfix (c :: pr) l = l := by
  induction l with
  | nil => rfl
  | cons d rest ih =>
    unfold takeBeforeInfix
    have hdc : (c == d) = false :=
      beq_eq_false_iff_ne.mpr (fun hc => (h d (by simp)) hc.symm)
    rw [List.isPrefixOf_cons₂, hdc]
    simp only [Bool.false_and, Bool.false_eq_true, if_false]
    rw [ih (fun d hd => h d (by simp [hd]))]

lemma isJsWs_of_isDigitOrDot (c : Char) (h : isDigitOrDot c = true) :
    isJsWs c = false := by
  by_contra hc
  rw [Bool.not_eq_false] at hc
  unfold isJsWs at hc
  simp only [Bool.or_eq_true, beq_iff_eq] at hc
  rcases hc with ((((((h1 | h1) | h1) | h1) | h1) | h1) | h1) <;>
    (subst h1; exact absurd h (by decide))

lemma isDigitOrDot_ne_o (c : Char) (h : isDigitOrDot c = true) : c ≠ 'o' := by
  intro hc
  subst hc
  exact absurd h (by decide)

lemma takeBeforeInfix_outof (l : List Char)
    (h : ∀ d ∈ l, isDigitOrDot d = true) : takeBeforeInfix "out of".toList l = l := by
  have hpat : "out of".toList = 'o' :: "ut of".toList := rfl
  rw [hpat]
  exact takeBeforeInfix_of_all_ne _ _ _ (fun d hd => isDigitOrDot_ne_o d (h d hd))

lemma httpError_ne_unavailable (t : String) :
    "HTTP Error: " ++ t ≠ "Product Currently Unavailable" := by
  intro h
  have h2 := congrArg String.data h
  simp [String.data_append] at h2

lemma httpError_ne_validation (t : String) :
    "HTTP Error: " ++ t ≠ "Validation Failed: Content loaded but Title is empty" := by
  intro h
  have h2 := congrArg String.data h
  simp [String.data_append] at h2

lemma extractData_Title (ps : PageState) :
    (extractData ps).Title = cleanTitle ps.rawTitle := rfl

lemma cleanTitle_ne_empty (raw : String) : cleanTitle raw ≠ "" := by
  unfold cleanTitle
  split
  · decide
  · next h => exact h

lemma validateExtractedData_extractData (ps : PageState) :
    validateExtractedData (extractData ps) ps = .ok () := by
  unfold validateExtractedData
  rw [if_neg (by rw [extractData_Title]; exact cleanTitle_ne_empty ps.rawTitle)]

lemma navigateToPage_some (st : Nat) :
    navigateToPage (some st) =
      (if st = 404 then .error "Page Not Found (404)"
       else if st > 399 then .error ("HTTP Error: " ++ toString st)
       else .ok ()) := rfl

lemma navigateToPage_error_msgs (r : Option Nat) (e : String)
    (h : navigateToPage r = .error e) :
    e = "No Response" ∨ e = "Page Not Found (404)" ∨
      ∃ st : Nat, e = "HTTP Error: " ++ toString st := by
  match r with
  | none => exact Or.inl (Except.error.inj h).symm
  | some st =>
    have h' : (if st = 404 then (Except.error "Page Not Found (404)" : Except String Unit)
        else if st > 399 then Except.error ("HTTP Error: " ++ toString st)
        else Except.ok ()) = Except.error e := h
    by_cases h4 : st = 404
    · rw [if_pos h4] at h'
      exact Or.inr (Or.inl (Except.error.inj h').symm)
    · rw [if_neg h4] at h'
      by_cases h9 : st > 399
      · rw [if_pos h9] at h'
        exact Or.inr (Or.inr ⟨st, (Except.error.inj h').symm⟩)
      · rw [if_neg h9] at h'
        cases h'

lemma checkForBotDetection_error_msg (ps : PageState) (e : String)
    (h : checkForBotDetection ps = .error e) :
    e = "Anti-bot detected or Invalid Page" := by
  unfold checkForBotDetection at h
  split at h
  · exact (Except.error.inj h).symm
  · cases h

lemma waitForProductContent_error_msg (ps : PageState) (sel : SelectorConfig) (e : String)
    (h : waitForProductContent ps sel = .error e) :
    e = "Timeout: Product title never appeared on screen" := by
  unfold waitForProductContent at h
  split at h
  · cases h
  · exact (Except.error.inj h).symm

/-- Every error message `fetchProductData` can produce.  In particular the
two messages of the empty-title validation branch are absent: that branch
is dead code behind `extractData`'s `'ERROR'` sentinel. -/
lemma fetchProductData_error_msgs (sku : SKUInput) (ps : PageState) (e : String)
    (h : fetchProductData sku ps = .error e) :
    e = "Selectors not mapped" ∨ e = "No Response" ∨ e = "Page Not Found (404)" ∨
      (∃ st : Nat, e = "HTTP Error: " ++ toString st) ∨
      e = "Anti-bot detected or Invalid Page" ∨
      e = "Timeout: Product title never appeared on screen" := by
  unfold fetchProductData at h
  match hsel : SELECTORS_MAP sku.Type' with
  | none =>
    rw [hsel] at h
    exact Or.inl (Except.error.inj h).symm
  | some sel =>
    rw [hsel] at h
    simp only [] at h
    match hnav : navigateToPage ps.response with
    | .error e1 =>
      rw [hnav] at h
      have he : e1 = e := Except.error.inj h
      subst he
      rcases navigateToPage_error_msgs _ _ hnav with h1 | h1 | ⟨st, h1⟩
      · exact Or.inr (Or.inl h1)
      · exact Or.inr (Or.inr (Or.inl h1))
      · exact Or.inr (Or.inr (Or.inr (Or.inl ⟨st, h1⟩)))
    | .ok _ =>
      rw [hnav] at h
      match hbot : checkForBotDetection ps with
      | .error e2 =>
        rw [hbot] at h
        have he : e2 = e := Except.error.inj h
        subst he
        exact Or.inr (Or.inr (Or.inr (Or.inr (Or.inl
          (checkForBotDetection_error_msg _ _ hbot)))))
      | .ok _ =>
        rw [hbot] at h
        match hwait : waitForProductContent ps sel with
        | .error e3 =>
          rw [hwait] at h
          have he : e3 = e := Except.error.inj h
          subst he
          exact Or.inr (Or.inr (Or.inr (Or.inr (Or.inr
            (waitForProductContent_error_msg _ _ _ hwait)))))
        | .ok _ =>
          rw [hwait, validateExtractedData_extractData ps] at h
          cases h

/-- A page whose raw extracted title is empty while the body carries the
unavailability marker (the scenario behind the spec's unavailability claim). -/
def pageEmptyTitleUnavailable : PageState :=
  { response := some 200, pageTitle := "", titleVisible := true,
    rawTitle := "", rawDescription := "", rawPrice := "", rawReviews := "",
    rawRating := "", bodyText := "Currently unavailable" }

/-- C7: the price, review-count and rating cleaning transforms of
`extractData` are idempotent: applying each transform twice yields the
same string as applying it once. -/
theorem cleaning_idempotent (s : String) :
    cleanPrice (cleanPrice s) = cleanPrice s ∧
    cleanReviews (cleanReviews s) = cleanReviews s ∧
    cleanRating (cleanRating s) = cleanRating s := by
  refine ⟨?_, ?_, ?_⟩
  · unfold cleanPrice
    rw [asString_toList, filter_idem]
  · unfold cleanReviews
    rw [asString_toList, filter_idem]
  · unfold cleanRating
    rw [asString_toList]
    have hall : ∀ c ∈ (jsTrimChars (takeBeforeInfix "out of".toList s.toList)).filter
        isDigitOrDot, isDigitOrDot c = true :=
      fun c hc => (List.mem_filter.mp hc).2
    rw [takeBeforeInfix_outof _ hall,
      jsTrimChars_of_all_neg _ (fun c hc => isJsWs_of_isDigitOrDot c (hall c hc)),
      filter_idem]

/-- C8: `resolveProductUrl` is a pure function of the retailer tag and the
identifier (equal inputs give equal URLs), and uses exactly one template
per retailer: the Walmart item template for Walmart descriptors and the
Amazon template for Amazon descriptors. -/
theorem resolveProductUrl_spec :
    (∀ s1 s2 : SKUInput, s1.Type' = s2.Type' → s1.SKU = s2.SKU →
      resolveProductUrl s1 = resolveProductUrl s2) ∧
    (∀ s : SKUInput, s.Type' = "Walmart" →
      resolveProductUrl s = "https://www.walmart.com/ip/" ++ s.SKU) ∧
    (∀ s : SKUInput, s.Type' = "Amazon" →
      resolveProductUrl s = "https://www.amazon.com/dp/" ++ s.SKU) := by
  refine ⟨?_, ?_, ?_⟩
  · intro s1 s2 ht hs
    unfold resolveProductUrl
    rw [ht, hs]
  · intro s h
    unfold resolveProductUrl
    rw [if_pos h]
  · intro s h
    unfold resolveProductUrl
    rw [if_neg (by rw [h]; decide)]

theorem resolveProductUrl_spec_witness :
    resolveProductUrl { Type' := "Walmart", SKU := "987654321" } =
      "https://www.walmart.com/ip/987654321" ∧
    resolveProductUrl { Type' := "Amazon", SKU := "B012345" } =
      "https://www.amazon.com/dp/B012345" :=
  ⟨resolveProductUrl_spec.2.1 { Type' := "Walmart", SKU := "987654321" } rfl,
   resolveProductUrl_spec.2.2 { Type' := "Amazon", SKU := "B012345" } rfl⟩

/-- C9: `navigateToPage` fails exactly as specified: no response object
gives the `No Response` error, HTTP 404 the not-found error, any other
status over 399 the `HTTP Error` message, and it succeeds exactly on a
response with status below 400. -/
theorem navigateToPage_failure_spec :
    navigateToPage none = .error "No Response" ∧
    navigateToPage (some 404) = .error "Page Not Found (404)" ∧
    (∀ st : Nat, 400 ≤ st → st ≠ 404 →
      navigateToPage (some st) = .error ("HTTP Error: " ++ toString st)) ∧
    (∀ st : Nat, st < 400 → navigateToPage (some st) = .ok ()) ∧
    (∀ r : Option Nat, navigateToPage r = .ok () ↔ ∃ st, r = some st ∧ st < 400) := by
  refine ⟨rfl, rfl, ?_, ?_, ?_⟩
  · intro st h400 h404
    rw [navigateToPage_some, if_neg h404, if_pos (by omega)]
  · intro st hlt
    rw [navigateToPage_some, if_neg (by omega), if_neg (by omega)]
  · intro r
    constructor
    · intro h
      match r with
      | none => cases h
      | some st =>
        refine ⟨st, rfl, ?_⟩
        by_contra hge
        rw [navigateToPage_some] at h
        by_cases h4 : st = 404
        · rw [if_pos h4] at h
          cases h
        · rw [if_neg h4, if_pos (by omega)] at h
          cases h
    · rintro ⟨st, rfl, hlt⟩
      rw [navigateToPage_some, if_neg (by omega), if_neg (by omega)]

theorem navigateToPage_failure_spec_witness :
    navigateToPage (some 500) = .error ("HTTP Error: " ++ toString (500 : Nat)) ∧
    navigateToPage (some 200) = .ok () ∧
    (navigateToPage (some 200) = .ok () ↔ ∃ st, (some 200 : Option Nat) = some st ∧ st < 400) :=
  ⟨navigateToPage_failure_spec.2.2.1 500 (by decide) (by decide),
   navigateToPage_failure_spec.2.2.2.1 200 (by decide),
   navigateToPage_failure_spec.2.2.2.2 (some 200)⟩

/-- C10 (implicit): `extractData` never returns an empty title — an empty
or whitespace-only raw title becomes the sentinel `ERROR` — so the
empty-title branch of `validateExtractedData`, with both its
`Product Currently Unavailable` and
`Validation Failed: Content loaded but Title is empty` errors, is
unreachable from `fetchProductData`. -/
theorem extractData_sentinel_spec :
    (∀ raw : String, cleanTitle raw ≠ "" ∧ (jsTrim raw = "" → cleanTitle raw = "ERROR")) ∧
    (∀ ps : PageState, (extractData ps).Title ≠ "" ∧
      validateExtractedData (extractData ps) ps = .ok ()) ∧
    (∀ (sku : SKUInput) (ps : PageState),
      fetchProductData sku ps ≠ .error "Product Currently Unavailable" ∧
      fetchProductData sku ps ≠ .error "Validation Failed: Content loaded but Title is empty") := by
  refine ⟨?_, ?_, ?_⟩
  · intro raw
    refine ⟨cleanTitle_ne_empty raw, ?_⟩
    intro h
    unfold cleanTitle
    rw [if_pos h]
  · intro ps
    exact ⟨by rw [extractData_Title]; exact cleanTitle_ne_empty ps.rawTitle,
      validateExtractedData_extractData ps⟩
  · intro sku ps
    constructor
    · intro h
      rcases fetchProductData_error_msgs _ _ _ h with h1 | h1 | h1 | ⟨st, h1⟩ | h1 | h1
      · exact absurd h1 (by decide)
      · exact absurd h1 (by decide)
      · exact absurd h1 (by decide)
      · exact httpError_ne_unavailable (toString st) h1.symm
      · exact absurd h1 (by decide)
      · exact absurd h1 (by decide)
    · intro h
      rcases fetchProductData_error_msgs _ _ _ h with h1 | h1 | h1 | ⟨st, h1⟩ | h1 | h1
      · exact absurd h1 (by decide)
      · exact absurd h1 (by decide)
      · exact absurd h1 (by decide)
      · exact httpError_ne_validation (toString st) h1.symm
      · exact absurd h1 (by decide)
      · exact absurd h1 (by decide)

theorem extractData_sentinel_spec_witness :
    jsTrim " " = "" ∧ cleanTitle " " = "ERROR" ∧
    fetchProductData { Type' := "Amazon", SKU := "X1" } pageEmptyTitleUnavailable ≠
      .error "Product Currently Unavailable" :=
  ⟨by decide, (extractData_sentinel_spec.1 " ").2 (by decide),
   (extractData_sentinel_spec.2.2 { Type' := "Amazon", SKU := "X1" }
     pageEmptyTitleUnavailable).1⟩

/-- A page on which the protocol always fails with the content-wait
timeout (no title selector ever becomes visible). -/
def pageTimeout : PageState :=
  { response := some 200, pageTitle := "Widget", titleVisible := false,
    rawTitle := "", rawDescription := "", rawPrice := "", rawReviews := "",
    rawRating := "", bodyText := "" }

/-- Attempt environments in which every attempt hits the timeout page. -/
def envTimeout : Nat → AttemptEnv :=
  fun _ => { browserReady := true, contextError := none, page := pageTimeout }

/-- Attempt environments in which every attempt sees the
empty-title/unavailable page. -/
def envUnavailable : Nat → AttemptEnv :=
  fun _ => { browserReady := true, contextError := none, page := pageEmptyTitleUnavailable }

lemma SELECTORS_MAP_none (t : String) (hA : t ≠ "Amazon") (hW : t ≠ "Walmart") :
    SELECTORS_MAP t = none := by
  unfold SELECTORS_MAP
  rw [if_neg hA, if_neg hW]

lemma retryLoop_all_failed (sku : SKUInput) (rs : List (Except String Product))
    (h : ∀ r ∈ rs, attemptFailed r = true) :
    retryLoop sku rs =
      createFallbackProduct sku
        ("FAILED after " ++ toString CONFIG.MAX_RETRIES ++ " attempts") := by
  induction rs with
  | nil => rfl
  | cons r rest ih =>
    cases r with
    | error e =>
      rw [retryLoop]
      exact ih (fun r hr => h r (by simp [hr]))
    | ok p =>
      have hs : isSoftFailure p = true := by
        have := h (.ok p) (by simp)
        simpa [attemptFailed] using this
      rw [retryLoop, hs]
      simp only [if_true]
      exact ih (fun r hr => h r (by simp [hr]))

lemma failedMessage_literal :
    ("FAILED after " ++ toString CONFIG.MAX_RETRIES ++ " attempts") =
      "FAILED after 3 attempts" := by decide

/-- C2 counterexample: with the protocol failing on every attempt, the
returned fallback record's title is `FAILED after 3 attempts`, which does
not start with the string `Failed after` claimed by the spec (the
capitalization differs). -/
theorem scrapeWithRetry_failed_prefix_cex :
    (scrapeWithRetry { Type' := "Amazon", SKU := "X1" } envTimeout).Title =
      "FAILED after 3 attempts" ∧
    "Failed after".toList.isPrefixOf
      (scrapeWithRetry { Type' := "Amazon", SKU := "X1" } envTimeout).Title.toList = false ∧
    (scrapeWithRetry { Type' := "Amazon", SKU := "X1" } envTimeout).Description = "FAILED" := by
  refine ⟨?_, ?_, ?_⟩ <;> decide

/-- C2 (amended): `scrapeWithRetry` always returns a record, its result
depends only on the first `CONFIG.MAX_RETRIES` attempt outcomes, and when
every attempt fails it returns the fallback record whose title is
`FAILED after 3 attempts` (starting with `FAILED after`) and whose
description is the failure sentinel `FAILED`. -/
theorem scrapeWithRetry_bounded_allfail (sku : SKUInput) (envs : Nat → AttemptEnv) :
    (∀ envs' : Nat → AttemptEnv, (∀ i, i < CONFIG.MAX_RETRIES → envs i = envs' i) →
      scrapeWithRetry sku envs = scrapeWithRetry sku envs') ∧
    ((∀ i, i < CONFIG.MAX_RETRIES → attemptFailed (scrapeSingleSKU sku (envs i)) = true) →
      scrapeWithRetry sku envs = createFallbackProduct sku "FAILED after 3 attempts" ∧
      (scrapeWithRetry sku envs).Title = "FAILED after 3 attempts" ∧
      "FAILED after".toList.isPrefixOf (scrapeWithRetry sku envs).Title.toList = true ∧
      (scrapeWithRetry sku envs).Description = CONFIG.FALLBACK_DESCRIPTION) := by
  constructor
  · intro envs' hagree
    unfold scrapeWithRetry
    congr 1
    exact List.map_congr_left
      (fun i hi => by rw [hagree i (List.mem_range.mp hi)])
  · intro hfail
    have hres : scrapeWithRetry sku envs =
        createFallbackProduct sku "FAILED after 3 attempts" := by
      unfold scrapeWithRetry
      rw [retryLoop_all_failed sku _ ?_, failedMessage_literal]
      intro r hr
      rcases List.mem_map.mp hr with ⟨i, hi, hri⟩
      rw [← hri]
      exact hfail i (List.mem_range.mp hi)
    have h1 : (createFallbackProduct sku "FAILED after 3 attempts").Title =
        "FAILED after 3 attempts" := rfl
    have h2 : "FAILED after".toList.isPrefixOf
        ("FAILED after 3 attempts" : String).toList = true := by decide
    have h3 : (createFallbackProduct sku "FAILED after 3 attempts").Description =
        CONFIG.FALLBACK_DESCRIPTION := rfl
    exact ⟨hres, by rw [hres, h1], by rw [hres, h1]; exact h2, by rw [hres]; exact h3⟩

theorem scrapeWithRetry_bounded_allfail_witness :
    scrapeWithRetry { Type' := "Amazon", SKU := "X1" } envTimeout =
      scrapeWithRetry { Type' := "Amazon", SKU := "X1" } (fun _ => envTimeout 0) ∧
    scrapeWithRetry { Type' := "Amazon", SKU := "X1" } envTimeout =
      createFallbackProduct { Type' := "Amazon", SKU := "X1" } "FAILED after 3 attempts" :=
  ⟨(scrapeWithRetry_bounded_allfail { Type' := "Amazon", SKU := "X1" } envTimeout).1
      (fun _ => envTimeout 0) (fun _ _ => rfl),
   ((scrapeWithRetry_bounded_allfail { Type' := "Amazon", SKU := "X1" } envTimeout).2
      (fun _ _ => rfl)).1⟩

/-- C3 (code evaluated at the failing input): on a page whose raw title is
empty and whose body contains `Currently unavailable`, each protocol run
returns a product titled with the `ERROR` sentinel (so validation never
raises `Product Currently Unavailable`), the retry wrapper classifies it
as a soft failure, and the final record is the generic
`FAILED after 3 attempts` fallback whose title does not name
unavailability. -/
theorem unavailable_scenario_behavior :
    fetchProductData { Type' := "Amazon", SKU := "X1" } pageEmptyTitleUnavailable =
      .ok { SKU := "X1", Source := "Amazon", Title := "ERROR", Description := "",
            Price := "", NumReviews := "", Rating := "" } ∧
    scrapeWithRetry { Type' := "Amazon", SKU := "X1" } envUnavailable =
      createFallbackProduct { Type' := "Amazon", SKU := "X1" } "FAILED after 3 attempts" ∧
    containsSubCI
      (scrapeWithRetry { Type' := "Amazon", SKU := "X1" } envUnavailable).Title
      "unavailable" = false := by
  exact ⟨rfl, by decide, by decide⟩

/-- C4 counterexample: for a descriptor with the unknown retailer tag
`Target`, the resolved record is the generic `FAILED after 3 attempts`
fallback; its title does not cite the `Selectors not mapped` reason. -/
theorem unknownRetailer_cex :
    scrapeWithRetry { Type' := "Target", SKU := "X1" } envTimeout =
      createFallbackProduct { Type' := "Target", SKU := "X1" } "FAILED after 3 attempts" ∧
    containsSub (scrapeWithRetry { Type' := "Target", SKU := "X1" } envTimeout).Title
      "Selectors" = false ∧
    containsSubCI (scrapeWithRetry { Type' := "Target", SKU := "X1" } envTimeout).Title
      "selectors not mapped" = false := by
  refine ⟨?_, ?_, ?_⟩ <;> decide

/-- C4 (amended): for a descriptor whose retailer tag is in neither
selector catalog entry, every protocol run fails with the
`Selectors not mapped` error and (with the browser initialized) the item
resolves — without any exception escaping — to the fallback record titled
`FAILED after 3 attempts`; the selectors-not-mapped reason appears only in
the per-attempt error, not in the record. -/
theorem unknownRetailer_fallback (sku : SKUInput) (envs : Nat → AttemptEnv) (ps : PageState)
    (hA : sku.Type' ≠ "Amazon") (hW : sku.Type' ≠ "Walmart") :
    fetchProductData sku ps = .error "Selectors not mapped" ∧
    ((∀ i, i < CONFIG.MAX_RETRIES → (envs i).browserReady = true) →
      scrapeWithRetry sku envs =
        createFallbackProduct sku "FAILED after 3 attempts") := by
  have hfetch : ∀ ps' : PageState, fetchProductData sku ps' = .error "Selectors not mapped" := by
    intro ps'
    unfold fetchProductData
    rw [SELECTORS_MAP_none _ hA hW]
  refine ⟨hfetch ps, ?_⟩
  intro hready
  unfold scrapeWithRetry
  rw [retryLoop_all_failed sku _ ?_, failedMessage_literal]
  intro r hr
  rcases List.mem_map.mp hr with ⟨i, hi, hri⟩
  rw [← hri]
  unfold scrapeSingleSKU
  rw [hready i (List.mem_range.mp hi)]
  simp only [Bool.not_true, Bool.false_eq_true, if_false]
  cases hce : (envs i).contextError with
  | some e => rfl
  | none =>
    show attemptFailed (fetchProductData sku (envs i).page) = true
    rw [hfetch (envs i).page]
    rfl

theorem unknownRetailer_fallback_witness :
    fetchProductData { Type' := "Target", SKU := "X1" } pageTimeout =
      .error "Selectors not mapped" ∧
    scrapeWithRetry { Type' := "Target", SKU := "X1" } envTimeout =
      createFallbackProduct { Type' := "Target", SKU := "X1" } "FAILED after 3 attempts" :=
  ⟨(unknownRetailer_fallback { Type' := "Target", SKU := "X1" } envTimeout pageTimeout
      (by decide) (by decide)).1,
   (unknownRetailer_fallback { Type' := "Target", SKU := "X1" } envTimeout pageTimeout
      (by decide) (by decide)).2 (fun _ _ => rfl)⟩

/-- C5: inside the retry loop, an attempt that returns a product whose
title is the literal sentinel `ERROR` or contains `Robot Check` behaves
exactly like an attempt that threw (one retry is consumed), while any
other returned product is accepted and returned immediately. -/
theorem softFailure_forces_retry (sku : SKUInput) (p : Product) (e : String)
    (rest : List (Except String Product)) :
    ((p.Title = "ERROR" ∨ containsSub p.Title "Robot Check" = true) →
      retryLoop sku (.ok p :: rest) = retryLoop sku (.error e :: rest)) ∧
    ((p.Title ≠ "ERROR" ∧ containsSub p.Title "Robot Check" = false) →
      retryLoop sku (.ok p :: rest) = p) := by
  constructor
  · intro h
    have hs : isSoftFailure p = true := by
      unfold isSoftFailure
      rcases h with h | h
      · rw [h]
        simp
      · rw [h]
        simp
    rw [retryLoop, hs]
    simp only [if_true]
    rw [retryLoop]
  · rintro ⟨h1, h2⟩
    have hs : isSoftFailure p = false := by
      unfold isSoftFailure
      rw [h2, beq_eq_false_iff_ne.mpr h1]
      rfl
    rw [retryLoop, hs]
    simp

/-- A product carrying the soft-failure sentinel title. -/
def productSentinel : Product :=
  { SKU := "X1", Source := "Amazon", Title := "ERROR", Description := "",
    Price := "", NumReviews := "", Rating := "" }

/-- A normal successfully scraped product. -/
def productGood : Product :=
  { SKU := "X1", Source := "Amazon", Title := "Widget", Description := "d",
    Price := "9.99", NumReviews := "10", Rating := "4.5" }

theorem softFailure_forces_retry_witness :
    retryLoop { Type' := "Amazon", SKU := "X1" } [.ok productSentinel] =
      retryLoop { Type' := "Amazon", SKU := "X1" } [.error "Timeout"] ∧
    retryLoop { Type' := "Amazon", SKU := "X1" } [.ok productGood] = productGood :=
  ⟨(softFailure_forces_retry { Type' := "Amazon", SKU := "X1" } productSentinel "Timeout" []).1
      (Or.inl rfl),
   (softFailure_forces_retry { Type' := "Amazon", SKU := "X1" } productGood "Timeout" []).2
      ⟨by decide, by decide⟩⟩

lemma fetchProductData_ok_key (sku : SKUInput) (ps : PageState) (p : Product)
    (h : fetchProductData sku ps = .ok p) :
    p.SKU = sku.SKU ∧ p.Source = sku.Type' := by
  unfold fetchProductData at h
  match hsel : SELECTORS_MAP sku.Type' with
  | none => rw [hsel] at h; cases h
  | some sel =>
    rw [hsel] at h
    simp only [] at h
    match hnav : navigateToPage ps.response with
    | .error e => rw [hnav] at h; cases h
    | .ok _ =>
      rw [hnav] at h
      match hbot : checkForBotDetection ps with
      | .error e => rw [hbot] at h; cases h
      | .ok _ =>
        rw [hbot] at h
        match hwait : waitForProductContent ps sel with
        | .error e => rw [hwait] at h; cases h
        | .ok _ =>
          rw [hwait, validateExtractedData_extractData ps] at h
          have hp := Except.ok.inj h
          rw [← hp]
          exact ⟨rfl, rfl⟩

lemma scrapeSingleSKU_ok_key (sku : SKUInput) (env : AttemptEnv) (p : Product)
    (h : scrapeSingleSKU sku env = .ok p) :
    p.SKU = sku.SKU ∧ p.Source = sku.Type' := by
  unfold scrapeSingleSKU at h
  cases hbr : env.browserReady with
  | false =>
    rw [hbr] at h
    simp only [Bool.not_false, if_true] at h
    have hp := Except.ok.inj h
    rw [← hp]
    exact ⟨rfl, rfl⟩
  | true =>
    rw [hbr] at h
    simp only [Bool.not_true, Bool.false_eq_true, if_false] at h
    cases hce : env.contextError with
    | some e => rw [hce] at h; cases h
    | none =>
      rw [hce] at h
      exact fetchProductData_ok_key sku env.page p h

lemma retryLoop_key (sku : SKUInput) (rs : List (Except String Product))
    (hok : ∀ p : Product, .ok p ∈ rs → p.SKU = sku.SKU ∧ p.Source = sku.Type') :
    (retryLoop sku rs).SKU = sku.SKU ∧ (retryLoop sku rs).Source = sku.Type' := by
  induction rs with
  | nil => exact ⟨rfl, rfl⟩
  | cons r rest ih =>
    cases r with
    | error e =>
      rw [retryLoop]
      exact ih (fun p hp => hok p (by simp [hp]))
    | ok p =>
      rw [retryLoop]
      by_cases hs : isSoftFailure p = true
      · rw [if_pos hs]
        exact ih (fun p hp => hok p (by simp [hp]))
      · rw [if_neg hs]
        exact hok p (by simp)

lemma scrapeWithRetry_key (sku : SKUInput) (envs : Nat → AttemptEnv) :
    keyOfProduct (scrapeWithRetry sku envs) = keyOfSKU sku := by
  unfold scrapeWithRetry keyOfProduct keyOfSKU
  have hk := retryLoop_key sku
    ((List.range CONFIG.MAX_RETRIES).map fun i => scrapeSingleSKU sku (envs i))
    (by
      intro p hp
      rcases List.mem_map.mp hp with ⟨i, _, hri⟩
      exact scrapeSingleSKU_ok_key sku (envs i) p hri)
  rw [hk.1, hk.2]

lemma getD_cons_eraseIdx_perm {α : Type} (l : List α) (i : Nat) (d : α)
    (h : i < l.length) : (l.getD i d :: l.eraseIdx i).Perm l := by
  rw [List.getD_eq_getElem l d h, List.eraseIdx_eq_take_drop_succ]
  have h1 : l.take i ++ l[i] :: l.drop (i + 1) = l := by
    rw [List.getElem_cons_drop, List.take_append_drop]
  have hp : (l.take i ++ l[i] :: l.drop (i + 1)).Perm
      (l[i] :: (l.take i ++ l.drop (i + 1))) := List.perm_middle
  rw [h1] at hp
  exact hp.symm

lemma completeOne_poolKeys (outcome : SKUInput → Product) (i : Nat) (s : PoolState)
    (hkey : ∀ sku, keyOfProduct (outcome sku) = keyOfSKU sku) :
    poolKeys (completeOne outcome i s) = poolKeys s := by
  obtain ⟨q, act, rs⟩ := s
  cases act with
  | nil => rfl
  | cons a rest =>
    have hred : completeOne outcome i ⟨q, a :: rest, rs⟩ =
        { queue := q,
          active := (a :: rest).eraseIdx (i % (a :: rest).length),
          results := rs ++ [outcome ((a :: rest).getD (i % (a :: rest).length) a)] } := rfl
    rw [hred]
    have hlen : i % (a :: rest).length < (a :: rest).length :=
      Nat.mod_lt _ (by simp)
    have hperm := (getD_cons_eraseIdx_perm (a :: rest) (i % (a :: rest).length) a hlen).map
      keyOfSKU
    have hmul : (↑((((a :: rest).getD (i % (a :: rest).length) a ::
        (a :: rest).eraseIdx (i % (a :: rest).length))).map keyOfSKU) :
          Multiset (String × String)) = ↑(((a :: rest)).map keyOfSKU) :=
      Multiset.coe_eq_coe.mpr hperm
    unfold poolKeys
    simp only []
    rw [← hmul]
    simp only [List.map_append, List.map_cons, List.map_nil, ← Multiset.coe_add,
      ← Multiset.cons_coe, Multiset.coe_nil, ← Multiset.singleton_add, hkey]
    abel

lemma admitGo_poolKeys (q : List SKUInput) :
    ∀ a rs, poolKeys (admitGo q a rs) = poolKeys ⟨q, a, rs⟩ := by
  induction q with
  | nil => intro a rs; rfl
  | cons sku rest ih =>
    intro a rs
    by_cases h : a.length < CONFIG.CONCURRENCY_LIMIT
    · rw [admitGo, if_pos h, ih (a ++ [sku]) rs]
      unfold poolKeys
      simp only []
      simp only [List.map_append, List.map_cons, List.map_nil, ← Multiset.coe_add,
        ← Multiset.cons_coe, Multiset.coe_nil, ← Multiset.singleton_add]
      abel
    · rw [admitGo, if_neg h]

lemma admitLoop_poolKeys (s : PoolState) : poolKeys (admitLoop s) = poolKeys s := by
  obtain ⟨q, a, rs⟩ := s
  exact admitGo_poolKeys q a rs

lemma poolRun_poolKeys (outcome : SKUInput → Product) (sched : Nat → Nat)
    (hkey : ∀ sku, keyOfProduct (outcome sku) = keyOfSKU sku) (step : Nat) (s : PoolState) :
    poolKeys (poolRun outcome sched step s) = poolKeys s := by
  induction step, s using poolRun.induct outcome sched with
  | case1 step s hguard => rw [poolRun, if_pos hguard]
  | case2 step s hguard ih =>
    rw [poolRun, if_neg hguard]
    rw [ih, completeOne_poolKeys outcome _ _ hkey, admitLoop_poolKeys]

lemma poolRun_terminal (outcome : SKUInput → Product) (sched : Nat → Nat)
    (step : Nat) (s : PoolState) :
    (poolRun outcome sched step s).queue = [] ∧ (poolRun outcome sched step s).active = [] := by
  induction step, s using poolRun.induct outcome sched with
  | case1 step s hguard => rw [poolRun, if_pos hguard]; exact hguard
  | case2 step s hguard ih => rw [poolRun, if_neg hguard]; exact ih

/-- C1: for every descriptor list, every family of per-attempt
environments and every completion schedule, `processSKUs` yields exactly
one record per descriptor (no descriptor dropped, no exception escaping —
the run is total): the output has the input's length and the multiset of
(SKU, Source) record keys is a permutation of the input's (SKU, Type)
descriptor keys. -/
theorem processSKUs_bijection (envs : SKUInput → Nat → AttemptEnv) (sched : Nat → Nat)
    (skus : List SKUInput) :
    (processSKUs envs sched skus).length = skus.length ∧
    ((processSKUs envs sched skus).map keyOfProduct).Perm (skus.map keyOfSKU) := by
  have hkey : ∀ sku, keyOfProduct (scrapeWithRetry sku (envs sku)) = keyOfSKU sku :=
    fun sku => scrapeWithRetry_key sku (envs sku)
  have hterm := poolRun_terminal (fun sku => scrapeWithRetry sku (envs sku)) sched 0
    { queue := skus, active := [], results := [] }
  have hkeys := poolRun_poolKeys (fun sku => scrapeWithRetry sku (envs sku)) sched hkey 0
    { queue := skus, active := [], results := [] }
  have hfinal : poolKeys (poolRun (fun sku => scrapeWithRetry sku (envs sku)) sched 0
      { queue := skus, active := [], results := [] }) =
      ↑((poolRun (fun sku => scrapeWithRetry sku (envs sku)) sched 0
        { queue := skus, active := [], results := [] }).results.map keyOfProduct) := by
    unfold poolKeys
    rw [hterm.1, hterm.2]
    simp
  have hinit : poolKeys { queue := skus, active := [], results := ([] : List Product) } =
      ↑(skus.map keyOfSKU) := by
    unfold poolKeys
    simp
  have hcoe : (↑((poolRun (fun sku => scrapeWithRetry sku (envs sku)) sched 0
      { queue := skus, active := [], results := [] }).results.map keyOfProduct) :
        Multiset (String × String)) = ↑(skus.map keyOfSKU) := by
    rw [← hfinal, hkeys, hinit]
  have hperm := Multiset.coe_eq_coe.mp hcoe
  constructor
  · have hlen := hperm.length_eq
    simpa [processSKUs] using hlen
  · simpa [processSKUs] using hperm

lemma admitTraceGo_active_le (q : List SKUInput) :
    ∀ a rs, a.length ≤ CONFIG.CONCURRENCY_LIMIT →
      ∀ t ∈ admitTraceGo q a rs, t.active.length ≤ CONFIG.CONCURRENCY_LIMIT := by
  induction q with
  | nil =>
    intro a rs _ t ht
    cases ht
  | cons sku rest ih =>
    intro a rs ha t ht
    rw [admitTraceGo] at ht
    by_cases h : a.length < CONFIG.CONCURRENCY_LIMIT
    · rw [if_pos h] at ht
      have hlen : (a ++ [sku]).length ≤ CONFIG.CONCURRENCY_LIMIT := by
        simp only [List.length_append, List.length_cons, List.length_nil]
        omega
      rcases List.mem_cons.mp ht with h1 | h1
      · subst h1
        exact hlen
      · exact ih (a ++ [sku]) rs hlen t h1
    · rw [if_neg h] at ht
      cases ht

lemma admitGo_active_le (q : List SKUInput) :
    ∀ a rs, a.length ≤ CONFIG.CONCURRENCY_LIMIT →
      (admitGo q a rs).active.length ≤ CONFIG.CONCURRENCY_LIMIT := by
  induction q with
  | nil => intro a rs ha; exact ha
  | cons sku rest ih =>
    intro a rs ha
    by_cases h : a.length < CONFIG.CONCURRENCY_LIMIT
    · rw [admitGo, if_pos h]
      have hlen : (a ++ [sku]).length ≤ CONFIG.CONCURRENCY_LIMIT := by
        simp only [List.length_append, List.length_cons, List.length_nil]
        omega
      exact ih (a ++ [sku]) rs hlen
    · rw [admitGo, if_neg h]
      exact ha

lemma completeOne_active_le (outcome : SKUInput → Product) (i : Nat) (s : PoolState) :
    (completeOne outcome i s).active.length ≤ s.active.length := by
  obtain ⟨q, act, rs⟩ := s
  cases act with
  | nil => exact Nat.le_refl _
  | cons a rest =>
    have hred : completeOne outcome i ⟨q, a :: rest, rs⟩ =
        { queue := q,
          active := (a :: rest).eraseIdx (i % (a :: rest).length),
          results := rs ++ [outcome ((a :: rest).getD (i % (a :: rest).length) a)] } := rfl
    rw [hred]
    simp only [List.length_eraseIdx]
    split <;> omega

lemma poolTrace_active_le (outcome : SKUInput → Product) (sched : Nat → Nat)
    (step : Nat) (s : PoolState) :
    s.active.length ≤ CONFIG.CONCURRENCY_LIMIT →
      ∀ t ∈ poolTrace outcome sched step s, t.active.length ≤ CONFIG.CONCURRENCY_LIMIT := by
  induction step, s using poolTrace.induct outcome sched with
  | case1 step s hguard =>
    intro hs t ht
    rw [poolTrace, if_pos hguard] at ht
    cases ht
  | case2 step s hguard ih =>
    intro hs t ht
    rw [poolTrace, if_neg hguard] at ht
    have hadmit : (admitLoop s).active.length ≤ CONFIG.CONCURRENCY_LIMIT :=
      admitGo_active_le s.queue s.active s.results hs
    have hcomp : (completeOne outcome (sched step) (admitLoop s)).active.length ≤
        CONFIG.CONCURRENCY_LIMIT :=
      le_trans (completeOne_active_le outcome (sched step) (admitLoop s)) hadmit
    rcases List.mem_append.mp ht with h1 | h1
    · exact admitTraceGo_active_le s.queue s.active s.results hs t h1
    · rcases List.mem_cons.mp h1 with h2 | h2
      · rw [h2]
        exact hcomp
      · exact ih hcomp t h2

lemma getLastD_append_cons {α : Type} (xs : List α) (y : α) (zs : List α) (d : α) :
    (xs ++ y :: zs).getLastD d = zs.getLastD y := by
  induction xs generalizing d with
  | nil => rw [List.nil_append, List.getLastD_cons]
  | cons x xs ih =>
    rw [List.cons_append, List.getLastD_cons]
    exact ih x

/-- The instrumented trace ends exactly at the state the pool loop
returns: `poolTrace` is a faithful instrumentation of `poolRun`. -/
lemma poolTrace_faithful (outcome : SKUInput → Product) (sched : Nat → Nat)
    (step : Nat) (s : PoolState) :
    (poolTrace outcome sched step s).getLastD s = poolRun outcome sched step s := by
  induction step, s using poolTrace.induct outcome sched with
  | case1 step s hguard =>
    rw [poolTrace, if_pos hguard, poolRun, if_pos hguard]
    rfl
  | case2 step s hguard ih =>
    rw [poolTrace, if_neg hguard, poolRun, if_neg hguard, getLastD_append_cons]
    exact ih

/-- C6: at every instant of a `processSKUs` run — after each single
admission and after each worker completion, for every input list, every
attempt-environment family and every completion interleaving — the number
of in-flight items never exceeds `CONFIG.CONCURRENCY_LIMIT`; the admission
loop only admits while the active set is strictly below the limit. -/
theorem concurrency_limit_respected (envs : SKUInput → Nat → AttemptEnv)
    (sched : Nat → Nat) (skus : List SKUInput) :
    ∀ t ∈ processTrace envs sched skus, t.active.length ≤ CONFIG.CONCURRENCY_LIMIT := by
  intro t ht
  unfold processTrace at ht
  exact poolTrace_active_le (fun sku => scrapeWithRetry sku (envs sku)) sched 0
    { queue := skus, active := [], results := [] } (by simp [CONFIG.CONCURRENCY_LIMIT]) t ht

theorem concurrency_limit_respected_witness :
    ({ queue := [], active := [{ Type' := "Amazon", SKU := "X1" }], results := [] } :
        PoolState) ∈
      processTrace (fun _ => envTimeout) (fun _ => 0) [{ Type' := "Amazon", SKU := "X1" }] ∧
    ({ queue := [], active := [{ Type' := "Amazon", SKU := "X1" }], results := [] } :
        PoolState).active.length ≤ CONFIG.CONCURRENCY_LIMIT := by
  have hmem : ({ queue := [], active := [{ Type' := "Amazon", SKU := "X1" }], results := [] } :
      PoolState) ∈
      processTrace (fun _ => envTimeout) (fun _ => 0) [{ Type' := "Amazon", SKU := "X1" }] := by
    rw [processTrace, poolTrace, if_neg (by decide)]
    exact List.mem_append_left _ (by decide)
  exact ⟨hmem,
    concurrency_limit_respected (fun _ => envTimeout) (fun _ => 0)
      [{ Type' := "Amazon", SKU := "X1" }]
      { queue := [], active := [{ Type' := "Amazon", SKU := "X1" }], results := [] }
      hmem⟩

end Scraper
